import Mathlib

/-!
Shallow embedding of the instantiation and linking engine in
`src/src/webassembly/instance.rs`: import resolution, the combined
function-index space, relocation patching, global initialization, the
Emscripten ABI shim, start-function selection/invocation and the
`grow_memory` intrinsic.  Machine pointers are modelled as natural
numbers, native byte memory as a map from addresses to bytes, and Rust
panics / recoverable errors as an explicit error type.
-/

/-- Error outcomes of instantiation: the recoverable `ErrorKind` variants of
the errors module plus `Panic`, modelling a Rust panic (fatal). -/
inductive ErrorKind where
  | CompileError (msg : String)
  | LinkError (msg : String)
  | RuntimeError (msg : String)
  | Panic (msg : String)
deriving DecidableEq, Repr

/-- Tagged import values from `import_object.rs`: a function pointer, an
8-byte global value, a table or a memory. -/
inductive ImportValue where
  | Func (addr : Nat)
  | Global (value : Int)
  | Table (t : List Nat)
  | Memory (pages : Nat)
deriving DecidableEq, Repr

/-- `ImportValue.isFunc v` holds exactly on function imports. -/
def ImportValue.isFunc : ImportValue → Bool
  | .Func _ => true
  | _ => false

/-- `ImportValue.isGlobal v` holds exactly on global imports. -/
def ImportValue.isGlobal : ImportValue → Bool
  | .Global _ => true
  | _ => false

/-- An import object is a mapping from a (module name, field name) key to an
optional import value. -/
def ImportObject : Type := String → String → Option ImportValue

/-- `ImportObject::get(module, field)`. -/
def ImportObject.get (io : ImportObject) (m : String) (f : String) : Option ImportValue := io m f

/-- A compiled local function's code buffer, identified by the base address
`as_ptr()` returns for it. -/
structure CodeBuf where
  base : Nat
deriving DecidableEq, Repr

/-- `get_function_addr` (instance.rs lines 56-68): indices below the number
of imported functions address the imports, the rest address local compiled
function buffers.  `none` models the Rust index-out-of-bounds panic. -/
def get_function_addr (func_index : Nat) (import_functions : List Nat)
    (functions : List CodeBuf) : Option Nat :=
  let len := import_functions.length
  if func_index < len then
    import_functions[func_index]?
  else
    (functions[func_index - len]?).map CodeBuf.base

/-- Named host routines whose process addresses relocations can resolve to:
the libcalls module's rounding/truncation primitives and stack probe, the two
memory intrinsics, and `mock_fn`. -/
inductive HostFn where
  | ceilf32
  | floorf32
  | truncf32
  | nearbyintf32
  | ceilf64
  | floorf64
  | truncf64
  | nearbyintf64
  | rust_probestack
  | current_memory_fn
  | grow_memory_fn
  | mock_fn_sym
deriving DecidableEq, Repr

/-- Cranelift `LibCall` symbols: the nine handled in instance.rs plus `Other`
for every remaining library symbol (the wildcard panic arm). -/
inductive LibCallSym where
  | CeilF32
  | FloorF32
  | TruncF32
  | NearestF32
  | CeilF64
  | FloorF64
  | TruncF64
  | NearestF64
  | Probestack
  | Other (sym : String)
deriving DecidableEq, Repr

/-- Relocation targets (`RelocationType` in relocation.rs, as consumed by
instance.rs lines 311-337). -/
inductive RelocationType where
  | Normal (func_index : Nat)
  | CurrentMemory
  | GrowMemory
  | LibCall (call : LibCallSym)
  | Intrinsic (name : String)
deriving DecidableEq, Repr

/-- Relocation kinds applied in instance.rs lines 341-357: `Abs8`,
`X86PCRel4`, and `OtherReloc` for every remaining cranelift kind (the
"unsupported reloc kind" panic arm). -/
inductive RelocKind where
  | Abs8
  | X86PCRel4
  | OtherReloc (k : String)
deriving DecidableEq, Repr

/-- A relocation record: byte offset into the owning function's buffer, kind,
addend and symbolic target. -/
structure Relocation where
  reloc : RelocKind
  offset : Nat
  addend : Int
  target : RelocationType
deriving DecidableEq, Repr

/-- Native byte memory: a map from addresses to byte values. -/
def Memory : Type := Nat → Nat

/-- Write `n` bytes of the value `v` little-endian at `addr`
(`write_unaligned` of an n-byte integer). -/
def writeBytesLE (m : Memory) (addr : Nat) (v : Nat) : Nat → Memory
  | 0 => m
  | n + 1 => writeBytesLE (fun a => if a = addr then v % 256 else m a) (addr + 1) (v / 256) n

/-- Read `n` bytes little-endian starting at `addr`. -/
def readBytesLE (m : Memory) (addr : Nat) : Nat → Nat
  | 0 => 0
  | n + 1 => m addr + 256 * readBytesLE m (addr + 1) n

/-- Two's-complement bit pattern of an integer truncated to `w` bits. -/
def toBits (w : Nat) (z : Int) : Nat := (z % (2 : Int) ^ w).toNat

/-- The libcall match in instance.rs lines 319-332: nine symbols resolve to
fixed built-in routines; every other library symbol panics. -/
def resolveLibCall : LibCallSym → Except ErrorKind HostFn
  | .CeilF32 => .ok .ceilf32
  | .FloorF32 => .ok .floorf32
  | .TruncF32 => .ok .truncf32
  | .NearestF32 => .ok .nearbyintf32
  | .CeilF64 => .ok .ceilf64
  | .FloorF64 => .ok .floorf64
  | .TruncF64 => .ok .truncf64
  | .NearestF64 => .ok .nearbyintf64
  | .Probestack => .ok .rust_probestack
  | .Other sym => .error (.Panic ("Unexpected libcall " ++ sym))

/-- Resolution of a relocation target to a concrete address (instance.rs
lines 311-337).  `H` assigns the process address of each named host
routine. -/
def resolveRelocTarget (H : HostFn → Nat) (import_functions : List Nat)
    (functions : List CodeBuf) : RelocationType → Except ErrorKind Nat
  | .Normal func_index =>
      match get_function_addr func_index import_functions functions with
      | some a => .ok a
      | none => .error (.Panic "index out of bounds")
  | .CurrentMemory => .ok (H .current_memory_fn)
  | .GrowMemory => .ok (H .grow_memory_fn)
  | .LibCall call => (resolveLibCall call).map H
  | .Intrinsic name => .error (.Panic ("Unexpected intrinsic " ++ name))

/-- Patch one relocation record into the owning function's code buffer
starting at `base` (instance.rs lines 341-357): `Abs8` writes the 8-byte
value target+addend at base+offset; `X86PCRel4` writes the 4-byte truncated
value target-(base+offset)+addend there; other kinds panic. -/
def apply_reloc (m : Memory) (base : Nat) (r : Relocation)
    (target_func_address : Nat) : Except ErrorKind Memory :=
  match r.reloc with
  | .Abs8 =>
      let reloc_address := base + r.offset
      let reloc_abs := (target_func_address : Int) + r.addend
      .ok (writeBytesLE m reloc_address (toBits 64 reloc_abs) 8)
  | .X86PCRel4 =>
      let reloc_address := base + r.offset
      let reloc_delta := (target_func_address : Int) - (reloc_address : Int) + r.addend
      .ok (writeBytesLE m reloc_address (toBits 32 reloc_delta) 4)
  | .OtherReloc _ => .error (.Panic "unsupported reloc kind")

/-- Processing of one relocation record of the function at combined index `i`:
resolve the target, then patch at that function's own base address. -/
def process_reloc (H : HostFn → Nat) (import_functions : List Nat)
    (functions : List CodeBuf) (m : Memory) (i : Nat) (r : Relocation) :
    Except ErrorKind Memory := do
  let target ← resolveRelocTarget H import_functions functions r.target
  match get_function_addr i import_functions functions with
  | some func_addr => apply_reloc m func_addr r target
  | none => .error (.Panic "index out of bounds")

/-- The stub `mock_fn` (instance.rs lines 151-154): a no-argument function
returning the i32 value 0. -/
def mock_fn : Unit → Int := fun _ => 0

/-- Resolution of a single imported-function declaration (the match in
instance.rs lines 222-240).  `mock_fn_addr` is the process address of
`mock_fn`. -/
def resolveOneImport (io : ImportObject) (mock_missing_imports : Bool)
    (mock_fn_addr : Nat) (decl : String × String) : Except ErrorKind Nat :=
  match io.get decl.1 decl.2 with
  | some (.Func f) => .ok f
  | none =>
      if mock_missing_imports then
        .ok mock_fn_addr
      else
        .error (.LinkError ("Imported function " ++ decl.1 ++ "." ++ decl.2 ++
          " was not provided in the import_functions"))
  | some _ => .error (.Panic "Expected function import")

/-- The imported-function resolution loop (instance.rs lines 221-244),
producing the `import_functions` address vector in declaration order. -/
def resolveImportedFunctions (io : ImportObject) (mock_missing_imports : Bool)
    (mock_fn_addr : Nat) : List (String × String) → Except ErrorKind (List Nat)
  | [] => .ok []
  | decl :: rest => do
      let a ← resolveOneImport io mock_missing_imports mock_fn_addr decl
      let l ← resolveImportedFunctions io mock_missing_imports mock_fn_addr rest
      .ok (a :: l)

/-- Global initializer expressions (`GlobalInit` from cranelift_wasm as used
in instance.rs lines 381-415; the float constants carry raw bit patterns). -/
inductive GlobalInit where
  | I32Const (n : Int)
  | I64Const (n : Int)
  | F32Const (bits : Nat)
  | F64Const (bits : Nat)
  | GetGlobal (global_index : Nat)
  | Import
deriving DecidableEq, Repr

/-- A global declaration: its initializer and, for imports, its
(module, field) import name. -/
structure GlobalDecl where
  initializer : GlobalInit
  import_name : Option (String × String)
deriving DecidableEq, Repr

/-- Reinterpretation of a u64 bit pattern as an i64 (the `u64 as i64` cast). -/
def u64_as_i64 (bits : Nat) : Int :=
  if bits < 2 ^ 63 then (bits : Int) else (bits : Int) - 2 ^ 64

/-- Evaluation of one global's initializer against the current slot array
(the match in instance.rs lines 381-415).  A `GetGlobal` out of the slot
slice's range is a bounds-check panic. -/
def evalGlobalValue (io : ImportObject) (mock_missing_globals : Bool)
    (globals_data : List Int) (g : GlobalDecl) : Except ErrorKind Int :=
  match g.initializer with
  | .I32Const n => .ok n
  | .I64Const n => .ok n
  | .F32Const bits => .ok (bits : Int)
  | .F64Const bits => .ok (u64_as_i64 bits)
  | .GetGlobal global_index =>
      match globals_data[global_index]? with
      | some v => .ok v
      | none => .error (.Panic "index out of bounds")
  | .Import =>
      match g.import_name with
      | none => .error (.Panic "Expected a import name for the global import")
      | some (module_name, field_name) =>
          match io.get module_name field_name with
          | some (.Global value) => .ok value
          | none =>
              if mock_missing_globals then
                .ok 0
              else
                .error (.Panic ("Imported global value was not provided (" ++
                  module_name ++ "." ++ field_name ++ ")"))
          | some _ =>
              .error (.Panic ("Expected global import (" ++ module_name ++ "." ++
                field_name ++ ")"))

/-- The global initialization loop (instance.rs lines 375-417): globals are
evaluated strictly in declaration order, each result stored in slot `i`. -/
def initGlobalsAux (io : ImportObject) (mock_missing_globals : Bool) :
    List Int → Nat → List GlobalDecl → Except ErrorKind (List Int)
  | globals_data, _, [] => .ok globals_data
  | globals_data, i, g :: rest => do
      let value ← evalGlobalValue io mock_missing_globals globals_data g
      initGlobalsAux io mock_missing_globals (globals_data.set i value) (i + 1) rest

/-- `globals_data_size` (instance.rs line 367): 8 bytes per global. -/
def globals_data_size (globals_count : Nat) : Nat := globals_count * 8

/-- The cast of the byte vector to i64 slots (instance.rs lines 371-373):
each group of 8 little-endian bytes is one slot. -/
def bytesToSlots8 : List Nat → List Int
  | b0 :: b1 :: b2 :: b3 :: b4 :: b5 :: b6 :: b7 :: rest =>
      u64_as_i64 (b0 + 256 * (b1 + 256 * (b2 + 256 * (b3 + 256 * (b4 + 256 *
        (b5 + 256 * (b6 + 256 * b7))))))) :: bytesToSlots8 rest
  | _ => []

/-- Global instantiation (instance.rs lines 364-419): the byte vector is
resized to 8 zero bytes per global, viewed as i64 slots, then each global is
evaluated in declaration order into its slot. -/
def initGlobals (io : ImportObject) (mock_missing_globals : Bool)
    (gs : List GlobalDecl) : Except ErrorKind (List Int) :=
  initGlobalsAux io mock_missing_globals
    (bytesToSlots8 (List.replicate (globals_data_size gs.length) 0)) 0 gs

/-- Module export entries (`Export` in module.rs). -/
inductive Export where
  | Function (index : Nat)
  | Table (index : Nat)
  | Memory (index : Nat)
  | Global (index : Nat)
deriving DecidableEq, Repr

/-- The five captured Emscripten shim addresses (instance.rs lines 70-76),
each the process address of the resolved export or 0. -/
structure EmscriptenData where
  malloc : Nat
  free : Nat
  memalign : Nat
  memset : Nat
  stack_alloc : Nat
deriving DecidableEq, Repr

/-- Instance ABI configuration. -/
inductive InstanceABI where
  | Emscripten
  | None
deriving DecidableEq, Repr

/-- Address capture for one shim entry (instance.rs lines 478-500): a present
function export is resolved through the combined index space; anything else
leaves the sentinel zero address. -/
def resolveShimAddr (e : Option Export) (import_functions : List Nat)
    (functions : List CodeBuf) : Except ErrorKind Nat :=
  match e with
  | some (Export.Function i) =>
      match get_function_addr i import_functions functions with
      | some a => .ok a
      | none => .error (.Panic "index out of bounds")
  | _ => .ok 0

/-- The Emscripten shim construction (instance.rs lines 456-513): under the
Emscripten ABI, look up the five well-known exports; if the four allocator
exports are all absent install no shim, otherwise capture each entry's
address. -/
def build_emscripten_data (abi : InstanceABI) (exports : String → Option Export)
    (import_functions : List Nat) (functions : List CodeBuf) :
    Except ErrorKind (Option EmscriptenData) :=
  if abi = InstanceABI.Emscripten then
    let malloc_export := exports "_malloc"
    let free_export := exports "_free"
    let memalign_export := exports "_memalign"
    let memset_export := exports "_memset"
    let stack_alloc_export := exports "stackAlloc"
    if malloc_export.isNone && free_export.isNone && memalign_export.isNone &&
        memset_export.isNone then
      .ok none
    else do
      let malloc_addr ← resolveShimAddr malloc_export import_functions functions
      let free_addr ← resolveShimAddr free_export import_functions functions
      let memalign_addr ← resolveShimAddr memalign_export import_functions functions
      let memset_addr ← resolveShimAddr memset_export import_functions functions
      let stack_alloc_addr ← resolveShimAddr stack_alloc_export import_functions functions
      .ok (some ⟨malloc_addr, free_addr, memalign_addr, memset_addr, stack_alloc_addr⟩)
  else
    .ok none

/-- Start-function selection (instance.rs lines 433-440): the module's
declared start index, or else an export named "main" when that export is a
function. -/
def select_start_func (start_func : Option Nat)
    (exports : String → Option Export) : Option Nat :=
  match start_func with
  | some i => some i
  | none =>
      match exports "main" with
      | some (Export.Function i) => some i
      | _ => none

/-- Modelled from the spec: executing generated native code (the
`call_protected!` macro and its signal interception are not in src/) either
returns normally or raises an illegal-memory-access fault. -/
inductive ExecOutcome where
  | returns
  | memFault (msg : String)
deriving DecidableEq, Repr

/-- Modelled from the spec: the protected-call wrapper converts an
illegal-memory-access fault during generated-code execution into a returned
runtime error instead of a process crash. -/
def call_protected : ExecOutcome → Except ErrorKind Unit
  | .returns => .ok ()
  | .memFault m => .error (.RuntimeError m)

/-- Modelled from the spec: the LinearMemory collaborator (memory.rs is not in
src/).  `grow` returns the previous page count and enlarges the memory, or
fails without mutating state when the request exceeds the configured maximum;
`current_pages` returns the current page count. -/
structure LinearMemory where
  current : Nat
  maximum : Option Nat
deriving DecidableEq, Repr

/-- `LinearMemory::current_pages()`. -/
def LinearMemory.current_pages (m : LinearMemory) : Nat := m.current

/-- Modelled from the spec: `LinearMemory::grow(additional_pages)` returns the
previous page count on success (`none` models the failure), failing without
mutation when the maximum would be exceeded. -/
def LinearMemory.grow (m : LinearMemory) (additional_pages : Nat) :
    Option (Int × LinearMemory) :=
  let new_pages := m.current + additional_pages
  match m.maximum with
  | some maxp => if maxp < new_pages then none else
      some ((m.current : Int), { m with current := new_pages })
  | none => some ((m.current : Int), { m with current := new_pages })

/-- The Instance fields the verified claims touch: the combined import+local
function address space, the start function index, the optional
Emscripten shim, global slots and memories. -/
structure Instance where
  import_functions : List Nat
  functions : List CodeBuf
  start_func : Option Nat
  emscripten_data : Option EmscriptenData
  globals : List Int
  memories : List LinearMemory
deriving DecidableEq, Repr

/-- `Instance::get_function_pointer` (instance.rs lines 533-535). -/
def Instance.get_function_pointer (inst : Instance) (func_index : Nat) : Option Nat :=
  get_function_addr func_index inst.import_functions inst.functions

/-- `Instance::start` (instance.rs lines 537-544): no start function means
`Ok(())` with no invocation; otherwise the start function is invoked through
the protected call.  `exec` gives the execution outcome of the native
function at a combined-space index. -/
def Instance.start (inst : Instance) (exec : Nat → ExecOutcome) :
    Except ErrorKind Unit :=
  match inst.start_func with
  | some func_index => call_protected (exec func_index)
  | none => .ok ()

/-- `grow_memory` (instance.rs lines 574-585): only memory index 0 is
supported (the assertion panics otherwise); delegates to the memory's `grow`,
yielding the grow result on success and -1 on failure. -/
def grow_memory (size : Nat) (memory_index : Nat) (inst : Instance) :
    Except ErrorKind (Int × Instance) :=
  if memory_index = 0 then
    match inst.memories[memory_index]? with
    | none => .error (.Panic "no memory for index")
    | some m =>
        match m.grow size with
        | some (prev, m2) =>
            .ok (prev, { inst with memories := inst.memories.set memory_index m2 })
        | none => .ok (-1, inst)
  else
    .error (.Panic "non-default memory_index (0) not supported yet")

/-- `current_memory` (instance.rs lines 587-590). -/
def current_memory (memory_index : Nat) (inst : Instance) : Except ErrorKind Nat :=
  match inst.memories[memory_index]? with
  | some m => .ok m.current_pages
  | none => .error (.Panic "index out of bounds")

/-- The module description consumed by instantiation. -/
structure ModuleInfo where
  imported_funcs : List (String × String)
  globals : List GlobalDecl
  exports : String → Option Export
  start_func : Option Nat

/-- Instantiation options (instance.rs lines 141-149; the codegen handle is
external). -/
structure InstanceOptions where
  mock_missing_imports : Bool
  mock_missing_globals : Bool
  mock_missing_tables : Bool
  abi : InstanceABI
  show_progressbar : Bool

/-- `Instance::new` (instance.rs lines 195-525) restricted to the phases
embedded here: import resolution, global initialization, start-function
selection and the Emscripten shim.  Compilation is the external code
generator (`compiled` is its output) and relocation patching acts on native
memory, modelled separately by `process_reloc`.  The table and memory
instantiation phases are empty in the source, so `memories` is empty. -/
def Instance.new (mod : ModuleInfo) (io : ImportObject) (options : InstanceOptions)
    (mock_fn_addr : Nat) (compiled : List CodeBuf) : Except ErrorKind Instance := do
  let import_functions ← resolveImportedFunctions io options.mock_missing_imports
    mock_fn_addr mod.imported_funcs
  let globals ← initGlobals io options.mock_missing_globals mod.globals
  let start_func := select_start_func mod.start_func mod.exports
  let emscripten_data ← build_emscripten_data options.abi mod.exports
    import_functions compiled
  .ok { import_functions := import_functions, functions := compiled,
        start_func := start_func, emscripten_data := emscripten_data,
        globals := globals, memories := [] }

/-- Fixture: an instance with one imported function at address 55 and one
local function buffer based at 77, and no start function. -/
def inst1 : Instance :=
  { import_functions := [55], functions := [⟨77⟩], start_func := none,
    emscripten_data := none, globals := [], memories := [] }

/-- Fixture: like `inst1` but with start function index 0. -/
def inst_started : Instance :=
  { import_functions := [55], functions := [⟨77⟩], start_func := some 0,
    emscripten_data := none, globals := [], memories := [] }

/-- Fixture: an import object providing nothing. -/
def io_empty : ImportObject := fun _ _ => none

/-- Fixture: an import object with a global at env.g and a function at
env.fn. -/
def io_mixed : ImportObject := fun m f =>
  if m = "env" then
    (if f = "g" then some (ImportValue.Global 7)
     else if f = "fn" then some (ImportValue.Func 5)
     else none)
  else none

/-- Fixture: a constant global followed by a backward reference to it. -/
def gs_backref : List GlobalDecl :=
  [⟨GlobalInit.I32Const 7, none⟩, ⟨GlobalInit.GetGlobal 0, none⟩]

/-- Fixture: a forward reference to global 1, then a constant global. -/
def gs_forwardref : List GlobalDecl :=
  [⟨GlobalInit.GetGlobal 1, none⟩, ⟨GlobalInit.I32Const 5, none⟩]

/-- Fixture: an export map exposing only stackAlloc, as a function export. -/
def exports_stack_only : String → Option Export :=
  fun s => if s = "stackAlloc" then some (Export.Function 0) else none

/-- Fixture: an export map exposing only _malloc, as a function export. -/
def exports_malloc_only : String → Option Export :=
  fun s => if s = "_malloc" then some (Export.Function 1) else none

/-- Fixture: a linear memory of 2 pages with a maximum of 10 pages. -/
def mem9 : LinearMemory := { current := 2, maximum := some 10 }

/-- Fixture: an instance whose only memory is `mem9`. -/
def inst9 : Instance :=
  { import_functions := [], functions := [], start_func := none,
    emscripten_data := none, globals := [], memories := [mem9] }

theorem errK_bind_ok {α β : Type} (v : α) (k : α → Except ErrorKind β) :
    (Except.ok v >>= k) = k v := rfl

theorem errK_bind_error {α β : Type} (e : ErrorKind) (k : α → Except ErrorKind β) :
    ((Except.error e : Except ErrorKind α) >>= k) = .error e := rfl

theorem writeBytesLE_lower (n : Nat) : ∀ (m : Memory) (addr v b : Nat), b < addr →
    writeBytesLE m addr v n b = m b := by
  induction n with
  | zero => intro m addr v b _; rfl
  | succ n ih =>
      intro m addr v b h
      simp only [writeBytesLE]
      rw [ih _ (addr + 1) (v / 256) b (by omega)]
      simp only [if_neg (by omega : ¬ b = addr)]

theorem readBytesLE_writeBytesLE (n : Nat) : ∀ (m : Memory) (addr v : Nat),
    readBytesLE (writeBytesLE m addr v n) addr n = v % 256 ^ n := by
  induction n with
  | zero => intro m addr v; simp [readBytesLE, writeBytesLE, Nat.mod_one]
  | succ n ih =>
      intro m addr v
      simp only [writeBytesLE, readBytesLE]
      rw [writeBytesLE_lower n _ (addr + 1) (v / 256) addr (by omega), ih]
      simp only [if_pos rfl, eq_self_iff_true, if_true]
      rw [pow_succ', Nat.mod_mul]

theorem toBits_lt (w : Nat) (z : Int) : toBits w z < 2 ^ w := by
  unfold toBits
  have hc : ((2 ^ w : Nat) : Int) = (2 : Int) ^ w := by push_cast; ring
  have hpos : (0 : Int) < (2 : Int) ^ w := by positivity
  have h1 := Int.emod_nonneg z (ne_of_gt hpos)
  have h2 := Int.emod_lt_of_pos z hpos
  omega

/-- C1: function-index addressing.  For an instance with `n` imported and `m`
local functions, `get_function_pointer i` returns the registered address of
the i-th import for every `i < n`, and the base address of the (i-n)-th
compiled function's code buffer for every `n ≤ i < n + m`. -/
theorem c1_function_index_addressing (inst : Instance) (i : Nat) :
    (i < inst.import_functions.length →
      ∃ a, Instance.get_function_pointer inst i = some a ∧
        inst.import_functions[i]? = some a) ∧
    (inst.import_functions.length ≤ i →
      i < inst.import_functions.length + inst.functions.length →
      ∃ b, Instance.get_function_pointer inst i = some (CodeBuf.base b) ∧
        inst.functions[i - inst.import_functions.length]? = some b) := by
  constructor
  · intro h
    refine ⟨inst.import_functions[i], ?_, List.getElem?_eq_getElem h⟩
    unfold Instance.get_function_pointer get_function_addr
    simp [h, List.getElem?_eq_getElem h]
  · intro h1 h2
    have hlt : i - inst.import_functions.length < inst.functions.length := by omega
    refine ⟨inst.functions[i - inst.import_functions.length], ?_,
      List.getElem?_eq_getElem hlt⟩
    unfold Instance.get_function_pointer get_function_addr
    simp only [if_neg (by omega : ¬ i < inst.import_functions.length)]
    rw [List.getElem?_eq_getElem hlt]
    rfl

theorem c1_function_index_addressing_witness :
    (∃ a, Instance.get_function_pointer inst1 0 = some a ∧
      inst1.import_functions[0]? = some a) ∧
    (∃ b, Instance.get_function_pointer inst1 1 = some (CodeBuf.base b) ∧
      inst1.functions[1 - inst1.import_functions.length]? = some b) :=
  ⟨(c1_function_index_addressing inst1 0).1 (by decide),
   (c1_function_index_addressing inst1 1).2 (by decide) (by decide)⟩

/-- C5: relocation patch semantics.  For a resolved target address `T`
applied to a function whose code buffer starts at `base`, an `Abs8`
relocation writes the 8-byte value `T + addend` at `base + offset`, and an
`X86PCRel4` relocation writes there the value
`T - (base + offset) + addend` truncated to a signed 32-bit integer; no
overflow check restricts the truncation (the equations hold for every
addend and target). -/
theorem c5_relocation_patch_semantics (m : Memory) (base offset : Nat)
    (addend : Int) (T : Nat) (tgt : RelocationType) :
    ∃ m8 m4,
      apply_reloc m base ⟨RelocKind.Abs8, offset, addend, tgt⟩ T = .ok m8 ∧
      readBytesLE m8 (base + offset) 8 =
        (((T : Int) + addend) % (2 : Int) ^ 64).toNat ∧
      apply_reloc m base ⟨RelocKind.X86PCRel4, offset, addend, tgt⟩ T = .ok m4 ∧
      readBytesLE m4 (base + offset) 4 =
        (((T : Int) - ((base + offset : Nat) : Int) + addend) % (2 : Int) ^ 32).toNat := by
  refine ⟨_, _, rfl, ?_, rfl, ?_⟩
  · rw [readBytesLE_writeBytesLE]
    rw [Nat.mod_eq_of_lt (lt_of_lt_of_eq (toBits_lt 64 _) (by norm_num))]
    rfl
  · rw [readBytesLE_writeBytesLE]
    rw [Nat.mod_eq_of_lt (lt_of_lt_of_eq (toBits_lt 32 _) (by norm_num))]
    rfl

/-- C6: relocation target resolution failure modes.  A `LibCall` relocation
resolves to exactly one of the nine built-in routines (ceil, floor, trunc,
nearest for f32 and f64, plus the stack probe); any other library symbol is
a fatal panic, and a named intrinsic is unconditionally a fatal panic. -/
theorem c6_reloc_target_resolution (H : HostFn → Nat)
    (import_functions : List Nat) (functions : List CodeBuf) :
    (resolveRelocTarget H import_functions functions
      (.LibCall .CeilF32) = .ok (H .ceilf32)) ∧
    (resolveRelocTarget H import_functions functions
      (.LibCall .FloorF32) = .ok (H .floorf32)) ∧
    (resolveRelocTarget H import_functions functions
      (.LibCall .TruncF32) = .ok (H .truncf32)) ∧
    (resolveRelocTarget H import_functions functions
      (.LibCall .NearestF32) = .ok (H .nearbyintf32)) ∧
    (resolveRelocTarget H import_functions functions
      (.LibCall .CeilF64) = .ok (H .ceilf64)) ∧
    (resolveRelocTarget H import_functions functions
      (.LibCall .FloorF64) = .ok (H .floorf64)) ∧
    (resolveRelocTarget H import_functions functions
      (.LibCall .TruncF64) = .ok (H .truncf64)) ∧
    (resolveRelocTarget H import_functions functions
      (.LibCall .NearestF64) = .ok (H .nearbyintf64)) ∧
    (resolveRelocTarget H import_functions functions
      (.LibCall .Probestack) = .ok (H .rust_probestack)) ∧
    (∀ sym, resolveRelocTarget H import_functions functions
      (.LibCall (.Other sym)) = .error (.Panic ("Unexpected libcall " ++ sym))) ∧
    (∀ name, resolveRelocTarget H import_functions functions
      (.Intrinsic name) = .error (.Panic ("Unexpected intrinsic " ++ name))) :=
  ⟨rfl, rfl, rfl, rfl, rfl, rfl, rfl, rfl, rfl, fun _ => rfl, fun _ => rfl⟩

theorem resolveImportedFunctions_append (io : ImportObject) (mock : Bool)
    (a : Nat) (xs ys : List (String × String)) :
    resolveImportedFunctions io mock a (xs ++ ys) =
      match resolveImportedFunctions io mock a xs with
      | .error e => .error e
      | .ok l1 =>
          match resolveImportedFunctions io mock a ys with
          | .error e => .error e
          | .ok l2 => .ok (l1 ++ l2) := by
  induction xs with
  | nil =>
      simp only [List.nil_append, resolveImportedFunctions]
      cases resolveImportedFunctions io mock a ys <;> simp
  | cons d xs ih =>
      simp only [List.cons_append, resolveImportedFunctions]
      cases hd : resolveOneImport io mock a d with
      | error e => rw [errK_bind_error, errK_bind_error]
      | ok v =>
          rw [errK_bind_ok, errK_bind_ok]
          simp only [List.append_eq]
          rw [ih]
          cases resolveImportedFunctions io mock a xs with
          | error e => rfl
          | ok l1 =>
              cases resolveImportedFunctions io mock a ys with
              | error e => rfl
              | ok l2 => simp [errK_bind_ok]

theorem resolveImportedFunctions_length (io : ImportObject) (mock : Bool)
    (a : Nat) (xs : List (String × String)) :
    ∀ l, resolveImportedFunctions io mock a xs = .ok l → l.length = xs.length := by
  induction xs with
  | nil =>
      intro l h
      simp only [resolveImportedFunctions] at h
      cases h
      rfl
  | cons d xs ih =>
      intro l h
      simp only [resolveImportedFunctions] at h
      cases hd : resolveOneImport io mock a d with
      | error e => rw [hd, errK_bind_error] at h; cases h
      | ok v =>
          rw [hd, errK_bind_ok] at h
          cases hr : resolveImportedFunctions io mock a xs with
          | error e => rw [hr, errK_bind_error] at h; cases h
          | ok l0 =>
              rw [hr, errK_bind_ok] at h
              cases h
              simp [ih l0 hr]

theorem missing_import_fails (io : ImportObject) (mock_fn_addr : Nat)
    (pre post : List (String × String)) (m f : String)
    (hmiss : io.get m f = none) (l : List Nat)
    (hpre : resolveImportedFunctions io false mock_fn_addr pre = .ok l) :
    resolveImportedFunctions io false mock_fn_addr (pre ++ (m, f) :: post) =
      .error (.LinkError ("Imported function " ++ m ++ "." ++ f ++
        " was not provided in the import_functions")) := by
  rw [resolveImportedFunctions_append, hpre]
  simp only [resolveImportedFunctions, resolveOneImport]
  simp [hmiss, errK_bind_error]

/-- C2: missing-import policy.  A function import whose (module, field) key
is absent from the import object makes instantiation fail with a LinkError
naming that pair when mocking is disabled; with `mock_missing_imports`
enabled, the address of the stub `mock_fn` (a no-argument function returning
zero) is recorded at that import's index and resolution continues. -/
theorem c2_missing_import_policy (io : ImportObject) (mock_fn_addr : Nat)
    (pre post : List (String × String)) (m f : String)
    (hmiss : io.get m f = none) :
    (∀ l, resolveImportedFunctions io false mock_fn_addr pre = .ok l →
      resolveImportedFunctions io false mock_fn_addr (pre ++ (m, f) :: post) =
        .error (.LinkError ("Imported function " ++ m ++ "." ++ f ++
          " was not provided in the import_functions"))) ∧
    (∀ l1 l2, resolveImportedFunctions io true mock_fn_addr pre = .ok l1 →
      resolveImportedFunctions io true mock_fn_addr post = .ok l2 →
      resolveImportedFunctions io true mock_fn_addr (pre ++ (m, f) :: post) =
        .ok (l1 ++ mock_fn_addr :: l2) ∧
      (l1 ++ mock_fn_addr :: l2)[pre.length]? = some mock_fn_addr ∧
      mock_fn () = 0) ∧
    (∀ (mod : ModuleInfo) (options : InstanceOptions) (compiled : List CodeBuf)
      (l : List Nat),
      options.mock_missing_imports = false →
      mod.imported_funcs = pre ++ (m, f) :: post →
      resolveImportedFunctions io false mock_fn_addr pre = .ok l →
      Instance.new mod io options mock_fn_addr compiled =
        .error (.LinkError ("Imported function " ++ m ++ "." ++ f ++
          " was not provided in the import_functions"))) := by
  refine ⟨fun l hpre => missing_import_fails io mock_fn_addr pre post m f hmiss l hpre,
    ?_, ?_⟩
  · intro l1 l2 h1 h2
    refine ⟨?_, ?_, rfl⟩
    · rw [resolveImportedFunctions_append, h1]
      simp only [resolveImportedFunctions, resolveOneImport]
      simp [hmiss, errK_bind_ok, h2]
    · have hl := resolveImportedFunctions_length io true mock_fn_addr pre l1 h1
      rw [← hl, List.getElem?_append_right (Nat.le_refl _)]
      simp
  · intro mod options compiled l hopt hdecls hpre
    unfold Instance.new
    rw [hopt, hdecls,
      missing_import_fails io mock_fn_addr pre post m f hmiss l hpre,
      errK_bind_error]

theorem c2_missing_import_policy_witness :
    resolveImportedFunctions io_empty false 777 [("env", "abs")] =
      .error (.LinkError
        "Imported function env.abs was not provided in the import_functions") ∧
    resolveImportedFunctions io_empty true 777 [("env", "abs")] = .ok [777] ∧
    mock_fn () = 0 := by
  have h := c2_missing_import_policy io_empty 777 [] [] "env" "abs" rfl
  exact ⟨h.1 [] rfl, (h.2.1 [] [] rfl rfl).1, (h.2.1 [] [] rfl rfl).2.2⟩

/-- C3: type mismatches are never masked.  A function import resolved by
the import object to a non-function value is a fatal panic regardless of the
`mock_missing_imports` setting, and a global import resolved to a non-global
value is a fatal panic regardless of the `mock_missing_globals` setting. -/
theorem c3_type_mismatch_never_masked (io : ImportObject) (m f : String)
    (iv : ImportValue) (h : io.get m f = some iv) :
    (iv.isFunc = false →
      ∀ (mock_missing_imports : Bool) (mock_fn_addr : Nat),
        resolveOneImport io mock_missing_imports mock_fn_addr (m, f) =
          .error (.Panic "Expected function import")) ∧
    (iv.isGlobal = false →
      ∀ (mock_missing_globals : Bool) (globals_data : List Int),
        evalGlobalValue io mock_missing_globals globals_data
            ⟨GlobalInit.Import, some (m, f)⟩ =
          .error (.Panic ("Expected global import (" ++ m ++ "." ++ f ++ ")"))) := by
  constructor
  · intro hif mock mock_fn_addr
    unfold resolveOneImport
    simp only []
    rw [show io.get (m, f).1 (m, f).2 = some iv from h]
    cases iv <;> simp_all [ImportValue.isFunc]
  · intro hig mock globals_data
    unfold evalGlobalValue
    simp only []
    rw [h]
    cases iv <;> simp_all [ImportValue.isGlobal]

theorem c3_type_mismatch_never_masked_witness :
    resolveOneImport io_mixed true 777 ("env", "g") =
      .error (.Panic "Expected function import") ∧
    evalGlobalValue io_mixed true [] ⟨GlobalInit.Import, some ("env", "fn")⟩ =
      .error (.Panic "Expected global import (env.fn)") := by
  have h1 := c3_type_mismatch_never_masked io_mixed "env" "g"
    (ImportValue.Global 7) (by decide)
  have h2 := c3_type_mismatch_never_masked io_mixed "env" "fn"
    (ImportValue.Func 5) (by decide)
  exact ⟨h1.1 rfl true 777, h2.2 rfl true []⟩

theorem initGlobalsAux_length (io : ImportObject) (mg : Bool)
    (gs : List GlobalDecl) :
    ∀ (data : List Int) (i : Nat) (out : List Int),
      initGlobalsAux io mg data i gs = .ok out → out.length = data.length := by
  induction gs with
  | nil =>
      intro data i out h
      simp only [initGlobalsAux] at h
      cases h
      rfl
  | cons g rest ih =>
      intro data i out h
      simp only [initGlobalsAux] at h
      cases hv : evalGlobalValue io mg data g with
      | error e => rw [hv, errK_bind_error] at h; cases h
      | ok v =>
          rw [hv, errK_bind_ok] at h
          have := ih (data.set i v) (i + 1) out h
          rwa [List.length_set] at this

theorem initGlobalsAux_untouched (io : ImportObject) (mg : Bool)
    (gs : List GlobalDecl) :
    ∀ (data : List Int) (i : Nat) (out : List Int),
      initGlobalsAux io mg data i gs = .ok out →
      ∀ j, j < i → out[j]? = data[j]? := by
  induction gs with
  | nil =>
      intro data i out h j hj
      simp only [initGlobalsAux] at h
      cases h
      rfl
  | cons g rest ih =>
      intro data i out h j hj
      simp only [initGlobalsAux] at h
      cases hv : evalGlobalValue io mg data g with
      | error e => rw [hv, errK_bind_error] at h; cases h
      | ok v =>
          rw [hv, errK_bind_ok] at h
          rw [ih (data.set i v) (i + 1) out h j (by omega),
            List.getElem?_set_ne (by omega : i ≠ j)]

theorem initGlobalsAux_backref (io : ImportObject) (mg : Bool)
    (gs : List GlobalDecl) :
    ∀ (data : List Int) (i : Nat) (out : List Int) (t k : Nat) (g : GlobalDecl),
      data.length = i + gs.length →
      initGlobalsAux io mg data i gs = .ok out →
      gs[t]? = some g →
      g.initializer = .GetGlobal k →
      k < i + t →
      out[i + t]? = out[k]? := by
  induction gs with
  | nil =>
      intro data i out t k g hlen h hg hinit hk
      simp at hg
  | cons g0 rest ih =>
      intro data i out t k g hlen h hg hinit hk
      simp only [initGlobalsAux] at h
      cases t with
      | zero =>
          obtain rfl : g0 = g := by simpa using hg
          simp only [List.length_cons] at hlen
          have hkd : k < data.length := by omega
          have hv : evalGlobalValue io mg data g0 = .ok data[k] := by
            unfold evalGlobalValue
            rw [hinit]
            simp [List.getElem?_eq_getElem hkd]
          rw [hv, errK_bind_ok] at h
          have hout_i : out[i]? = (data.set i data[k])[i]? :=
            initGlobalsAux_untouched io mg rest _ (i + 1) out h i (by omega)
          have hout_k : out[k]? = (data.set i data[k])[k]? :=
            initGlobalsAux_untouched io mg rest _ (i + 1) out h k (by omega)
          rw [Nat.add_zero, hout_i, hout_k,
            List.getElem?_set_self (by omega : i < data.length),
            List.getElem?_set_ne (by omega : i ≠ k),
            List.getElem?_eq_getElem hkd]
      | succ u =>
          cases hv : evalGlobalValue io mg data g0 with
          | error e => rw [hv, errK_bind_error] at h; cases h
          | ok v =>
              rw [hv, errK_bind_ok] at h
              have hlen' : (data.set i v).length = (i + 1) + rest.length := by
                rw [List.length_set]
                simp only [List.length_cons] at hlen
                omega
              have := ih (data.set i v) (i + 1) out u k g hlen' h
                (by simpa using hg) hinit (by omega)
              rw [show i + (u + 1) = i + 1 + u from by omega]
              exact this

theorem initGlobalsAux_forwardref_zero (io : ImportObject) (mg : Bool)
    (gs : List GlobalDecl) :
    ∀ (data : List Int) (i : Nat) (out : List Int) (t k : Nat) (g : GlobalDecl),
      data.length = i + gs.length →
      (∀ j, i ≤ j → j < data.length → data[j]? = some 0) →
      initGlobalsAux io mg data i gs = .ok out →
      gs[t]? = some g →
      g.initializer = .GetGlobal k →
      i + t ≤ k → k < data.length →
      out[i + t]? = some 0 := by
  induction gs with
  | nil =>
      intro data i out t k g hlen hzero h hg hinit hk1 hk2
      simp at hg
  | cons g0 rest ih =>
      intro data i out t k g hlen hzero h hg hinit hk1 hk2
      simp only [initGlobalsAux] at h
      cases t with
      | zero =>
          obtain rfl : g0 = g := by simpa using hg
          have hv : evalGlobalValue io mg data g0 = .ok 0 := by
            unfold evalGlobalValue
            rw [hinit]
            simp [hzero k (by omega) hk2]
          rw [hv, errK_bind_ok] at h
          have hout_i : out[i]? = (data.set i 0)[i]? :=
            initGlobalsAux_untouched io mg rest _ (i + 1) out h i (by omega)
          rw [Nat.add_zero, hout_i,
            List.getElem?_set_self (by omega : i < data.length)]
      | succ u =>
          cases hv : evalGlobalValue io mg data g0 with
          | error e => rw [hv, errK_bind_error] at h; cases h
          | ok v =>
              rw [hv, errK_bind_ok] at h
              have hlen' : (data.set i v).length = (i + 1) + rest.length := by
                rw [List.length_set]
                simp only [List.length_cons] at hlen
                omega
              have hzero' : ∀ j, i + 1 ≤ j → j < (data.set i v).length →
                  (data.set i v)[j]? = some 0 := by
                intro j hj1 hj2
                rw [List.length_set] at hj2
                rw [List.getElem?_set_ne (by omega : i ≠ j)]
                exact hzero j (by omega) hj2
              have := ih (data.set i v) (i + 1) out u k g hlen' hzero' h
                (by simpa using hg) hinit (by omega)
                (by rw [List.length_set]; exact hk2)
              rw [show i + (u + 1) = i + 1 + u from by omega]
              exact this

theorem bytesToSlots8_zero (n : Nat) :
    bytesToSlots8 (List.replicate (globals_data_size n) 0) =
      List.replicate n 0 := by
  induction n with
  | zero => rfl
  | succ n ih =>
      have h8 : globals_data_size (n + 1) = 8 + globals_data_size n := by
        unfold globals_data_size
        omega
      rw [h8, List.replicate_add]
      show bytesToSlots8 ((0 : Nat) :: 0 :: 0 :: 0 :: 0 :: 0 :: 0 :: 0 ::
        List.replicate (globals_data_size n) 0) = List.replicate (n + 1) 0
      rw [List.replicate_succ]
      simp only [bytesToSlots8]
      rw [ih]
      norm_num [u64_as_i64]

/-- C4: global backward-reference law.  Globals are evaluated strictly in
declaration order into one 8-byte slot each, and a global whose initializer
references a strictly earlier global index k receives exactly the value
global k's slot was initialized to. -/
theorem c4_global_backward_reference (io : ImportObject)
    (mock_missing_globals : Bool) (gs : List GlobalDecl) (data : List Int)
    (i k : Nat) (g : GlobalDecl)
    (hrun : initGlobals io mock_missing_globals gs = .ok data)
    (hg : gs[i]? = some g)
    (hinit : g.initializer = .GetGlobal k)
    (hk : k < i) :
    data[i]? = data[k]? ∧ data.length = gs.length ∧
    globals_data_size gs.length = gs.length * 8 := by
  unfold initGlobals at hrun
  rw [bytesToSlots8_zero] at hrun
  refine ⟨?_, ?_, rfl⟩
  · have := initGlobalsAux_backref io mock_missing_globals gs _ 0 data i k g
      (by simp) hrun hg hinit (by omega)
    simpa using this
  · have := initGlobalsAux_length io mock_missing_globals gs _ 0 data hrun
    simpa using this

theorem c4_global_backward_reference_witness :
    initGlobals io_empty false gs_backref = .ok [7, 7] ∧
    ([7, 7] : List Int)[1]? = ([7, 7] : List Int)[0]? := by
  refine ⟨rfl, ?_⟩
  exact (c4_global_backward_reference io_empty false gs_backref [7, 7] 1 0
    ⟨GlobalInit.GetGlobal 0, none⟩ rfl rfl rfl (by decide)).1

/-- C10: the global slot array is resized to 8 zero bytes per global before
any initializer runs; an in-range but not-yet-initialized (forward)
reference therefore evaluates to exactly 0, and an out-of-range reference
fails with the bounds-check panic of the slot slice. -/
theorem c10_zero_prefill_and_bounds (io : ImportObject)
    (mock_missing_globals : Bool) (gs : List GlobalDecl) :
    (bytesToSlots8 (List.replicate (globals_data_size gs.length) 0) =
      List.replicate gs.length 0) ∧
    (∀ data t k g,
      initGlobals io mock_missing_globals gs = .ok data →
      gs[t]? = some g →
      g.initializer = .GetGlobal k →
      t ≤ k → k < gs.length →
      data[t]? = some 0) ∧
    (∀ (globals_data : List Int) (g : GlobalDecl) (k : Nat),
      g.initializer = .GetGlobal k →
      globals_data.length ≤ k →
      evalGlobalValue io mock_missing_globals globals_data g =
        .error (.Panic "index out of bounds")) := by
  refine ⟨bytesToSlots8_zero gs.length, ?_, ?_⟩
  · intro data t k g hrun hg hinit ht hk
    unfold initGlobals at hrun
    rw [bytesToSlots8_zero] at hrun
    have := initGlobalsAux_forwardref_zero io mock_missing_globals gs _ 0 data
      t k g (by simp) (by intro j h1 h2; simp at h2; simp [h2]) hrun hg hinit
      (by omega) (by simp [hk])
    simpa using this
  · intro globals_data g k hinit hk
    unfold evalGlobalValue
    rw [hinit]
    simp [List.getElem?_eq_none hk]

theorem c10_zero_prefill_and_bounds_witness :
    initGlobals io_empty false gs_forwardref = .ok [0, 5] ∧
    ([0, 5] : List Int)[0]? = some 0 ∧
    evalGlobalValue io_empty false [] ⟨GlobalInit.GetGlobal 0, none⟩ =
      .error (.Panic "index out of bounds") := by
  have h := c10_zero_prefill_and_bounds io_empty false gs_forwardref
  exact ⟨rfl,
    h.2.1 [0, 5] 0 1 ⟨GlobalInit.GetGlobal 1, none⟩ rfl rfl rfl (by decide)
      (by decide),
    h.2.2 [] ⟨GlobalInit.GetGlobal 0, none⟩ 0 rfl (by decide)⟩

/-- C7 counterexample: the export map exposing only stackAlloc (one of the
five well-known exports, as a function export) yields no shim under the
Emscripten ABI, because the activation check consults only the four
allocator exports; this refutes "if at least one of the five is present the
shim is installed". -/
theorem c7_counterexample :
    (exports_stack_only "stackAlloc").isSome = true ∧
    build_emscripten_data InstanceABI.Emscripten exports_stack_only []
      [⟨5⟩] = .ok none := by
  constructor
  · rfl
  · rfl

/-- C7 (amended): under the Emscripten ABI the shim is absent exactly when
all four of _malloc, _free, _memalign and _memset are absent from the
exports (the stackAlloc export is not consulted for activation); otherwise
the shim is installed with every present function export among the five
resolved through the combined index space and every other entry left at the
zero address. -/
theorem c7_shim_activation (exports : String → Option Export)
    (import_functions : List Nat) (functions : List CodeBuf)
    (a b c d e : Nat)
    (hm : resolveShimAddr (exports "_malloc") import_functions functions = .ok a)
    (hf : resolveShimAddr (exports "_free") import_functions functions = .ok b)
    (hma : resolveShimAddr (exports "_memalign") import_functions functions = .ok c)
    (hms : resolveShimAddr (exports "_memset") import_functions functions = .ok d)
    (hsa : resolveShimAddr (exports "stackAlloc") import_functions functions = .ok e) :
    build_emscripten_data InstanceABI.Emscripten exports import_functions functions =
      if (exports "_malloc").isNone && (exports "_free").isNone &&
          (exports "_memalign").isNone && (exports "_memset").isNone then
        .ok none
      else
        .ok (some ⟨a, b, c, d, e⟩) := by
  unfold build_emscripten_data
  rw [if_pos rfl]
  simp only []
  by_cases hall : ((exports "_malloc").isNone && (exports "_free").isNone &&
      (exports "_memalign").isNone && (exports "_memset").isNone) = true
  · rw [if_pos hall, if_pos hall]
  · rw [if_neg hall, if_neg hall]
    rw [hm, errK_bind_ok, hf, errK_bind_ok, hma, errK_bind_ok, hms,
      errK_bind_ok, hsa, errK_bind_ok]

theorem c7_shim_activation_witness :
    build_emscripten_data InstanceABI.Emscripten exports_malloc_only [11]
      [⟨22⟩] = .ok (some ⟨22, 0, 0, 0, 0⟩) := by
  have h := c7_shim_activation exports_malloc_only [11] [⟨22⟩]
    22 0 0 0 0 rfl rfl rfl rfl rfl
  rw [h]
  rfl

/-- C8: start-function selection and invocation.  The instance's start
function index is the module's declared start index, or else the index of
an export named "main" when that export is a function; `start` on an
instance without a start function returns success without invoking any
code, and with one it invokes it through the protected-call wrapper, which
converts an illegal-memory-access fault into a returned error. -/
theorem c8_start_selection_and_invocation :
    (∀ (i : Nat) (exports : String → Option Export),
      select_start_func (some i) exports = some i) ∧
    (∀ (exports : String → Option Export),
      select_start_func none exports =
        match exports "main" with
        | some (Export.Function i) => some i
        | _ => none) ∧
    (∀ (inst : Instance) (exec : Nat → ExecOutcome),
      inst.start_func = none → inst.start exec = .ok ()) ∧
    (∀ (inst : Instance) (exec : Nat → ExecOutcome) (i : Nat),
      inst.start_func = some i → inst.start exec = call_protected (exec i)) ∧
    (call_protected ExecOutcome.returns = .ok ()) ∧
    (∀ msg, call_protected (ExecOutcome.memFault msg) =
      .error (.RuntimeError msg)) := by
  refine ⟨fun i exports => rfl, fun exports => rfl, ?_, ?_, rfl, fun msg => rfl⟩
  · intro inst exec h
    unfold Instance.start
    rw [h]
  · intro inst exec i h
    unfold Instance.start
    rw [h]

theorem c8_start_selection_and_invocation_witness :
    Instance.start inst1 (fun _ => ExecOutcome.memFault "illegal access") =
      .ok () ∧
    Instance.start inst_started (fun _ => ExecOutcome.memFault "illegal access") =
      .error (.RuntimeError "illegal access") := by
  have h := c8_start_selection_and_invocation
  exact ⟨h.2.2.1 inst1 _ rfl,
    by rw [h.2.2.2.1 inst_started _ 0 rfl]; exact h.2.2.2.2.2 "illegal access"⟩

theorem LinearMemory_grow_spec (m : LinearMemory) (add : Nat) (prev : Int)
    (m2 : LinearMemory) (h : m.grow add = some (prev, m2)) :
    prev = (m.current_pages : Int) ∧
    m2.current_pages = m.current_pages + add := by
  unfold LinearMemory.grow at h
  cases hmax : m.maximum with
  | none =>
      rw [hmax] at h
      simp only [Option.some.injEq, Prod.mk.injEq] at h
      exact ⟨h.1.symm, by rw [← h.2]; rfl⟩
  | some maxp =>
      rw [hmax] at h
      simp only [] at h
      by_cases hc : maxp < m.current + add
      · rw [if_pos hc] at h
        cases h
      · rw [if_neg hc] at h
        simp only [Option.some.injEq, Prod.mk.injEq] at h
        exact ⟨h.1.symm, by rw [← h.2]; rfl⟩

/-- C9 counterexample: on a 2-page memory with maximum 10, `grow_memory 3`
succeeds and returns 2 (the previous page count, the value `grow` returns)
while the growth delta is 3; this refutes "returns the growth delta in
pages when it succeeds". -/
theorem c9_counterexample :
    mem9.grow 3 = some (2, { current := 5, maximum := some 10 }) ∧
    grow_memory 3 0 inst9 =
      .ok (2, { inst9 with memories := [{ current := 5, maximum := some 10 }] }) ∧
    (2 : Int) ≠ 3 := by
  refine ⟨rfl, rfl, by decide⟩

/-- C9 (amended): `grow_memory(size, memory_index, instance)` supports only
memory index 0 (asserted), delegates to the addressed memory's `grow`,
returns -1 when that grow fails, and on success returns the value `grow`
returns, which per the memory contract is the previous page count (not the
growth delta). -/
theorem c9_grow_memory_contract (inst : Instance) (size : Nat)
    (m : LinearMemory) (hm : inst.memories[0]? = some m) :
    (∀ memory_index, memory_index ≠ 0 →
      grow_memory size memory_index inst =
        .error (.Panic "non-default memory_index (0) not supported yet")) ∧
    (∀ prev m2, m.grow size = some (prev, m2) →
      grow_memory size 0 inst =
        .ok (prev, { inst with memories := inst.memories.set 0 m2 }) ∧
      prev = (m.current_pages : Int) ∧
      m2.current_pages = m.current_pages + size) ∧
    (m.grow size = none → grow_memory size 0 inst = .ok (-1, inst)) := by
  refine ⟨?_, ?_, ?_⟩
  · intro memory_index h
    unfold grow_memory
    rw [if_neg h]
  · intro prev m2 hg
    have hs := LinearMemory_grow_spec m size prev m2 hg
    exact ⟨by simp [grow_memory, hm, hg], hs.1, hs.2⟩
  · intro hg
    simp [grow_memory, hm, hg]

theorem c9_grow_memory_contract_witness :
    grow_memory 3 0 inst9 =
      .ok (2, { inst9 with memories := [{ current := 5, maximum := some 10 }] }) ∧
    (2 : Int) = (mem9.current_pages : Int) ∧
    grow_memory 20 0 inst9 = .ok (-1, inst9) ∧
    grow_memory 3 1 inst9 =
      .error (.Panic "non-default memory_index (0) not supported yet") := by
  have h3 := c9_grow_memory_contract inst9 3 mem9 rfl
  have h20 := c9_grow_memory_contract inst9 20 mem9 rfl
  exact ⟨(h3.2.1 2 ⟨5, some 10⟩ rfl).1, (h3.2.1 2 ⟨5, some 10⟩ rfl).2.1,
    h20.2.2 rfl, h3.1 1 (by decide)⟩
